import Mathlib

/-!
Verification development for the PhotoKitty single-page application
(repository file `src/App.tsx`).  The relevant state and handlers of the
React component are shallowly embedded as pure Lean definitions:

* the top-level component state (`AppState`) with the gallery toggle,
  photo-index navigation and upload handlers;
* the gesture debounce state machine of `GestureController`;
* the unique-photo selection and per-frame visibility rule of
  `CompositionElements`;
* the layout generator `getHelloKittyData` and the gallery ring
  projector `getGalleryPosition` (real-valued geometry, with the
  `Math.random()` draws modelled as an explicit stream of rational
  values consumed in call order).

JavaScript numbers are modelled as `ℚ` where only arithmetic and
comparisons occur, and as `ℝ` where trigonometry is involved.
-/

/- ------------------------------------------------------------------ -/
/- Top-level application state (`PhotoKittyApp` useState hooks).       -/
/- ------------------------------------------------------------------ -/

/-- `sceneState`: the two endpoint layouts of the particle composition. -/
inductive SceneState
  | CHAOS
  | FORMED
deriving DecidableEq

/-- The `useState` hooks of `PhotoKittyApp` (App.tsx lines 682-690),
gathered into one record. -/
structure AppState where
  sceneState : SceneState
  rotationSpeed : ℚ
  birthdayMode : Bool
  aiStatus : String
  debugMode : Bool
  photoCount : ℤ
  galleryMode : Bool
  currentPhotoIndex : ℤ
deriving DecidableEq

/-- `TOTAL_NUMBERED_PHOTOS = 52` (App.tsx line 16). -/
def TOTAL_NUMBERED_PHOTOS : ℤ := 52

/-- `totalGalleryPhotos = TOTAL_NUMBERED_PHOTOS` (App.tsx line 693). -/
def totalGalleryPhotos : ℤ := TOTAL_NUMBERED_PHOTOS

/-- `handleGalleryToggle` (App.tsx lines 695-706): when not in gallery
mode, enter it (and reset the photo index to 0) only if the scene is
FORMED; when in gallery mode, leave it. -/
def handleGalleryToggle (s : AppState) : AppState :=
  if !s.galleryMode then
    if s.sceneState = SceneState.FORMED then
      { s with galleryMode := true, currentPhotoIndex := 0 }
    else s
  else
    { s with galleryMode := false }

/-- Render condition of the gallery button (App.tsx line 777):
`(sceneState === 'FORMED' && !birthdayMode) || galleryMode`.  The
`handleGalleryToggle` handler is reachable only while this button is
rendered. -/
def galleryButtonVisible (s : AppState) : Bool :=
  (decide (s.sceneState = SceneState.FORMED) && !s.birthdayMode) || s.galleryMode

/-- A user click on the gallery toggle: `handleGalleryToggle` runs only
when the gallery button is rendered (App.tsx lines 777-783); otherwise
there is no button and the state is untouched. -/
def galleryToggleClick (s : AppState) : AppState :=
  if galleryButtonVisible s then handleGalleryToggle s else s

/-- `handlePrevPhoto` (App.tsx lines 708-710):
`(prev - 1 + totalGalleryPhotos) % totalGalleryPhotos`, with `%` the
JavaScript truncating remainder (`Int.tmod`). -/
def handlePrevPhoto (s : AppState) : AppState :=
  { s with currentPhotoIndex :=
      (s.currentPhotoIndex - 1 + totalGalleryPhotos).tmod totalGalleryPhotos }

/-- `handleNextPhoto` (App.tsx lines 712-714):
`(prev + 1) % totalGalleryPhotos` with the JavaScript remainder. -/
def handleNextPhoto (s : AppState) : AppState :=
  { s with currentPhotoIndex :=
      (s.currentPhotoIndex + 1).tmod totalGalleryPhotos }

/-- `handlePhotoUpload` (App.tsx lines 739-760), given the number of
files selected.  Returns the new state together with a flag recording
whether the blocking photo-limit alert fired.  An empty selection
returns immediately; at the limit an alert is shown and nothing
changes; otherwise the stored count grows by
`min(files.length, remainingSlots)`, clamped at the limit. -/
def handlePhotoUpload (s : AppState) (numFiles : ℕ) : AppState × Bool :=
  if numFiles = 0 then (s, false)
  else
    let remainingSlots : ℤ := TOTAL_NUMBERED_PHOTOS - s.photoCount
    if remainingSlots ≤ 0 then (s, true)
    else
      let filesToUpload : ℤ := min (numFiles : ℤ) remainingSlots
      ({ s with photoCount := min (s.photoCount + filesToUpload) TOTAL_NUMBERED_PHOTOS },
       false)

/-- The initial component state (App.tsx lines 682-689). -/
def appState0 : AppState :=
  { sceneState := SceneState.CHAOS
    rotationSpeed := 0
    birthdayMode := false
    aiStatus := "INITIALIZING..."
    debugMode := false
    photoCount := 0
    galleryMode := false
    currentPhotoIndex := 0 }

/-- The initial state after the chaos/formed toggle: scene FORMED. -/
def appStateFormed : AppState := { appState0 with sceneState := SceneState.FORMED }

/-- A state whose photo index sits at the last gallery slot. -/
def appStateLast : AppState := { appStateFormed with currentPhotoIndex := 51 }

/-- A state whose stored photo count has reached the limit. -/
def appStateFull : AppState := { appStateFormed with photoCount := 52 }

/- ------------------------------------------------------------------ -/
/- Gesture debounce state machine (`GestureController`).               -/
/- ------------------------------------------------------------------ -/

/-- One per-frame classification result delivered by the recognizer:
`results.gestures[0][0]` (App.tsx line 622). -/
structure GestureSample where
  categoryName : String
  score : ℚ
deriving DecidableEq

/-- The mutable refs of `GestureController` (App.tsx lines 569-571):
`lastGesture`, `gestureCount` and the latched `currentState`. -/
structure GestureState where
  lastGesture : Option String
  gestureCount : ℕ
  currentState : Option SceneState
deriving DecidableEq

/-- The gesture-to-scene-state mapping inside `predictWebcam`
(App.tsx lines 635-637): `Open_Palm` requests CHAOS, `Closed_Fist`
requests FORMED, anything else maps to nothing. -/
def gestureTargetState (name : String) : Option SceneState :=
  if name = "Open_Palm" then some SceneState.CHAOS
  else if name = "Closed_Fist" then some SceneState.FORMED
  else none

/-- Initial values of the `GestureController` refs. -/
def initialGestureState : GestureState :=
  { lastGesture := none, gestureCount := 0, currentState := none }

/-- The debounce logic of one `predictWebcam` frame (App.tsx lines
621-663), restricted to the debounce refs.  The input is the top
classification of the frame (`none` when no hand/gesture is detected).
Returns the updated refs together with the transition event passed to
`onGesture`, if any. -/
def debounceStep (st : GestureState) (sample : Option GestureSample) :
    GestureState × Option SceneState :=
  match sample with
  | none =>
    ({ lastGesture := none, gestureCount := 0, currentState := st.currentState }, none)
  | some s =>
    if s.score > 0.5 then
      let st1 : GestureState :=
        if st.lastGesture = some s.categoryName then
          { lastGesture := st.lastGesture, gestureCount := st.gestureCount + 1,
            currentState := st.currentState }
        else
          { lastGesture := some s.categoryName, gestureCount := 1,
            currentState := st.currentState }
      if st1.gestureCount > 5 then
        match gestureTargetState s.categoryName with
        | some t =>
          if st1.currentState ≠ some t then
            ({ st1 with currentState := some t }, some t)
          else (st1, none)
        | none => (st1, none)
      else (st1, none)
    else
      ({ lastGesture := none, gestureCount := 0, currentState := st.currentState }, none)

/-- The debounce refs after processing a sequence of frames from the
initial state. -/
def debounceRun (samples : List (Option GestureSample)) : GestureState :=
  samples.foldl (fun st x => (debounceStep st x).1) initialGestureState

/-- Invariant of the debounce refs: once the counter has passed 5 with
a mapped gesture latched in `lastGesture`, `currentState` already holds
the mapped state (the transition fired on the sixth sample). -/
def gestureInv (st : GestureState) : Prop :=
  ∀ n t, st.gestureCount > 5 → st.lastGesture = some n →
    gestureTargetState n = some t → st.currentState = some t

/-- A confident Closed_Fist sample. -/
def fistSample : GestureSample := { categoryName := "Closed_Fist", score := 9/10 }

/-- A confident Open_Palm sample. -/
def palmSample : GestureSample := { categoryName := "Open_Palm", score := 9/10 }

/-- A low-confidence Open_Palm sample. -/
def weakPalmSample : GestureSample := { categoryName := "Open_Palm", score := 3/10 }

/-- Five consecutive confident Closed_Fist frames. -/
def fistFrames5 : List (Option GestureSample) :=
  [some fistSample, some fistSample, some fistSample, some fistSample, some fistSample]

/-- Three consecutive confident Open_Palm frames. -/
def palmFrames3 : List (Option GestureSample) :=
  [some palmSample, some palmSample, some palmSample]


/- ------------------------------------------------------------------ -/
/- Particle data, unique-photo selection and visibility.               -/
/- ------------------------------------------------------------------ -/

/-- Element kinds of the composition (App.tsx line 66). -/
inductive ElementType
  | PHOTO
  | HEART
  | BALLOON
  | GIFT
  | EYE
  | NOSE
  | WHISKER
  | BOW
deriving DecidableEq

/-- The per-particle fields consulted by the gallery logic: element
type and assigned texture index (App.tsx lines 345-360; the other
fields are irrelevant to visibility). -/
structure ParticleData where
  type : ElementType
  textureIndex : ℕ
deriving DecidableEq

/-- Default particle for out-of-range list reads. -/
def defaultParticle : ParticleData :=
  { type := ElementType.PHOTO, textureIndex := 0 }

/-- Recursive core of `uniquePhotoIndices` (App.tsx lines 364-377):
walk the particle list from position `i`, carrying the set of already
seen texture indices, and keep the first PHOTO particle of each
texture. -/
def uniquePhotoIndicesAux : List ParticleData → ℕ → List ℕ → List ℕ
  | [], _, _ => []
  | d :: rest, i, seenTextures =>
    if d.type = ElementType.PHOTO ∧ d.textureIndex ∉ seenTextures then
      i :: uniquePhotoIndicesAux rest (i + 1) (d.textureIndex :: seenTextures)
    else
      uniquePhotoIndicesAux rest (i + 1) seenTextures

/-- `uniquePhotoIndices` (App.tsx lines 364-377): the indices of the
first PHOTO particle of each distinct texture. -/
def uniquePhotoIndices (data : List ParticleData) : List ℕ :=
  uniquePhotoIndicesAux data 0 []

/-- Visibility of particle `i` after a `useFrame` update (App.tsx
lines 396-450): in gallery mode only unique gallery photos
(`galleryMode && uniquePhotoIndices.includes(i)`) stay visible and all
other particles are hidden; outside gallery mode every particle is
visible. -/
def particleVisible (galleryMode : Bool) (data : List ParticleData) (i : ℕ) : Bool :=
  let isUniqueGalleryPhoto := galleryMode && (uniquePhotoIndices data).contains i
  if galleryMode then isUniqueGalleryPhoto else true

/-- A small particle list exercising duplicate textures and non-photo
elements. -/
def demoParticles : List ParticleData :=
  [{ type := ElementType.PHOTO, textureIndex := 0 },
   { type := ElementType.HEART, textureIndex := 1 },
   { type := ElementType.PHOTO, textureIndex := 0 },
   { type := ElementType.PHOTO, textureIndex := 1 }]

/- ------------------------------------------------------------------ -/
/- Real-valued geometry: layout generator and gallery projector.       -/
/- ------------------------------------------------------------------ -/

/-- `CONFIG.colors.pink` (App.tsx line 22). -/
def colorPink : String := "#ff69b4"

/-- `CONFIG.colors.hotPink` (App.tsx line 23). -/
def colorHotPink : String := "#ff1493"

/-- `CONFIG.colors.lightPink` (App.tsx line 24). -/
def colorLightPink : String := "#ffb6c1"

/-- `CONFIG.colors.white` (App.tsx line 25). -/
def colorWhite : String := "#ffffff"

/-- `CONFIG.colors.black` (App.tsx line 26). -/
def colorBlack : String := "#1a1a1a"

/-- `CONFIG.colors.yellow` (App.tsx line 27). -/
def colorYellow : String := "#ffd700"

/-- `CONFIG.colors.blue` (App.tsx line 28). -/
def colorBlue : String := "#87cefa"

/-- Componentwise sum of two 3-vectors (`THREE.Vector3.add`). -/
noncomputable def v3add (a b : ℝ × ℝ × ℝ) : ℝ × ℝ × ℝ :=
  (a.1 + b.1, a.2.1 + b.2.1, a.2.2 + b.2.2)

/-- Squared Euclidean distance between two 3-vectors. -/
noncomputable def distSq (a b : ℝ × ℝ × ℝ) : ℝ :=
  (a.1 - b.1) ^ 2 + (a.2.1 - b.2.1) ^ 2 + (a.2.2 - b.2.2) ^ 2

/-- Rotation about the z axis by `ang` radians
(`THREE.Vector3.applyAxisAngle` with unit axis `(0,0,1)`). -/
noncomputable def rotateZ (ang : ℝ) (p : ℝ × ℝ × ℝ) : ℝ × ℝ × ℝ :=
  (p.1 * Real.cos ang - p.2.1 * Real.sin ang,
   p.1 * Real.sin ang + p.2.1 * Real.cos ang,
   p.2.2)

/-- Euler rotation record (`THREE.Euler`, z component is the one the
layout generator sets for whiskers). -/
structure Euler3 where
  x : ℝ
  y : ℝ
  z : ℝ

/-- The particle descriptor returned by `getHelloKittyData`. -/
structure KittyParticle where
  type : ElementType
  pos : ℝ × ℝ × ℝ
  color : String
  scale : ℝ
  rotation : Euler3

/-- The whisker row tilt (App.tsx lines 119-120):
`row === 0 ? tilt : row === 1 ? 0 : -tilt` with `tilt = 0.15`. -/
noncomputable def whiskerRowTilt (row : ℕ) : ℝ :=
  if row = 0 then 0.15 else if row = 1 then 0 else -0.15

/-- `getHelloKittyData` (App.tsx lines 68-204): pure map from a
particle index to its descriptor.  The `Math.random()` draws are
modelled as an explicit stream `rand` of rational values in `[0,1)`,
consumed in the call order of the source; a branch that draws an extra
value (the HEART/GIFT color draw) shifts the positions of the later
draws, mirroring the sequential consumption of the JavaScript code. -/
noncomputable def getHelloKittyData (index : ℕ) (rand : ℕ → ℚ) : KittyParticle :=
  if index = 0 ∨ index = 1 then
    { type := ElementType.EYE
      pos := ((if index = 0 then (-1.5 : ℝ) else 1.5), -0.5, 3.8)
      color := colorBlack
      scale := 0.8
      rotation := ⟨0, 0, 0⟩ }
  else if index = 2 then
    { type := ElementType.NOSE
      pos := (0, -1.2, 4)
      color := colorYellow
      scale := 0.6
      rotation := ⟨0, 0, 0⟩ }
  else if 3 ≤ index ∧ index ≤ 8 then
    let side : ℤ := if index < 6 then -1 else 1
    let row : ℕ := (index - 3) % 3
    let yBase : ℝ := -0.8
    let yStep : ℝ := 0.6
    let xPos : ℝ := (side : ℝ) * 4.5
    let yPos : ℝ := yBase - (row : ℝ) * yStep
    let zPos : ℝ := 3
    let rotZ : ℝ :=
      if side = 1 then -Real.pi / 2 + whiskerRowTilt row
      else Real.pi / 2 - whiskerRowTilt row
    { type := ElementType.WHISKER
      pos := (xPos, yPos, zPos)
      color := colorBlack
      scale := 1
      rotation := ⟨0, 0, rotZ⟩ }
  else if 9 ≤ index ∧ index ≤ 35 then
    let scale : ℝ := 0.8 + (rand 0 : ℝ) * 0.4
    let part : ℚ := rand 1
    let center : ℝ × ℝ × ℝ :=
      if part < 0.2 then (0, 0, 0)
      else if part < 0.6 then (-1.2, 0, 0)
      else (1.2, 0, 0)
    let radius : ℝ := if part < 0.2 then 0.5 else 0.8
    let scaleX : ℝ := 1
    let scaleY : ℝ := if part < 0.2 then 1 else 1.2
    let u : ℝ := (rand 2 : ℝ)
    let v : ℝ := (rand 3 : ℝ)
    let theta : ℝ := 2 * Real.pi * u
    let phi : ℝ := Real.arccos (2 * v - 1)
    let x : ℝ := radius * Real.sin phi * Real.cos theta * scaleX
    let y : ℝ := radius * Real.sin phi * Real.sin theta * scaleY
    let z : ℝ := radius * Real.cos phi * 0.5
    { type := ElementType.BOW
      pos := v3add (rotateZ (-0.5) (v3add (x, y, z) center)) (3, 2.5, 2.5)
      color := colorHotPink
      scale := scale
      rotation := ⟨0, 0, 0⟩ }
  else
    let r : ℚ := rand 0
    let typeR : ℚ := rand 1
    let type : ElementType :=
      if typeR < 0.5 then ElementType.PHOTO
      else if typeR < 0.75 then ElementType.BALLOON
      else if typeR < 0.9 then ElementType.HEART
      else ElementType.GIFT
    let color0 : String :=
      if type = ElementType.HEART ∨ type = ElementType.GIFT then
        (if rand 2 > 0.5 then colorWhite else colorLightPink)
      else colorWhite
    let k : ℕ := if type = ElementType.HEART ∨ type = ElementType.GIFT then 3 else 2
    if r < 0.65 then
      let u : ℝ := (rand k : ℝ)
      let v : ℝ := (rand (k + 1) : ℝ)
      let theta : ℝ := 2 * Real.pi * u
      let phi : ℝ := Real.arccos (2 * v - 1)
      let rBase : ℝ := 3.5 + (rand (k + 2) : ℝ) * 0.5
      { type := type
        pos := (rBase * Real.sin phi * Real.cos theta,
                (rBase * 0.75) * Real.sin phi * Real.sin theta,
                (rBase * 0.75) * Real.cos phi)
        color := color0
        scale := 1
        rotation := ⟨0, 0, 0⟩ }
    else if r < 0.85 then
      let isLeft : Bool := rand k > 0.5
      let u : ℝ := (rand (k + 1) : ℝ)
      let v : ℝ := (rand (k + 2) : ℝ)
      let theta : ℝ := 2 * Real.pi * u
      let phi : ℝ := Real.arccos (2 * v - 1)
      let radius : ℝ := 1.2
      let x : ℝ := radius * Real.sin phi * Real.cos theta
      let y : ℝ := radius * Real.sin phi * Real.sin theta
      let z : ℝ := radius * Real.cos phi
      let offset : ℝ × ℝ × ℝ := ((if isLeft then (-3.5 : ℝ) else 3.5), 3, 0)
      let rotationZ : ℝ := if isLeft then 0.5 else -0.5
      { type := type
        pos := v3add (rotateZ rotationZ (x, y, z)) offset
        color := color0
        scale := 1
        rotation := ⟨0, 0, 0⟩ }
    else
      let u : ℝ := (rand k : ℝ)
      let v : ℝ := (rand (k + 1) : ℝ)
      let theta : ℝ := 2 * Real.pi * u
      let h : ℝ := -4 + v * 3
      let r2 : ℝ := 2.5 * (1 - (h + 4) / 4) + 1.5
      let color1 : String :=
        if type ≠ ElementType.PHOTO then
          (if rand (k + 2) > 0.5 then colorBlue else colorPink)
        else color0
      { type := type
        pos := (r2 * Real.cos theta, h, r2 * Real.sin theta)
        color := color1
        scale := 1
        rotation := ⟨0, 0, 0⟩ }

/-- `getGalleryPosition` (App.tsx lines 380-390): ring position of
gallery photo `photoIdx` among `totalPhotos`, with the photo at
`focusedIndex` rotated to the front. -/
noncomputable def getGalleryPosition (photoIdx totalPhotos focusedIndex : ℕ) :
    ℝ × ℝ × ℝ :=
  let radius : ℝ := 20
  let angleOffset : ℝ := ((focusedIndex : ℝ) / (totalPhotos : ℝ)) * Real.pi * 2
  let angle : ℝ := ((photoIdx : ℝ) / (totalPhotos : ℝ)) * Real.pi * 2 - angleOffset
  (Real.sin angle * radius, 0, Real.cos angle * radius)

/-- A random stream returning zero everywhere. -/
def zeroRandQ : ℕ → ℚ := fun _ => 0

/-- Random stream driving the C8 counterexample: `part = 3/10` selects
the left bow lobe, `u = 1/4` makes `theta = pi/2` and `v = 1/2` makes
`phi = pi/2`, so the sampled point sits at the tip of the stretched
y semi-axis of the lobe. -/
def bowRandCE : ℕ → ℚ := fun n =>
  if n = 2 then 1/4 else if n = 3 then 1/2 else 3/10


/- ------------------------------------------------------------------ -/
/- Theorems.                                                           -/
/- ------------------------------------------------------------------ -/

/-- C1: entering gallery mode is rejected with no state change unless
the scene is FORMED and birthday mode is off.  A gallery-toggle click
(only possible while the gallery button is rendered) from a state with
`galleryMode = false` leaves the whole state unchanged whenever the
scene is not FORMED or birthday mode is on, and `galleryMode` becomes
true exactly when the scene is FORMED and birthday mode is off. -/
theorem galleryEntry_requires_formed_nonbirthday (s : AppState)
    (hg : s.galleryMode = false) :
    ((s.sceneState ≠ SceneState.FORMED ∨ s.birthdayMode = true) →
      galleryToggleClick s = s) ∧
    ((galleryToggleClick s).galleryMode = true ↔
      s.sceneState = SceneState.FORMED ∧ s.birthdayMode = false) := by
  unfold galleryToggleClick galleryButtonVisible handleGalleryToggle
  cases hs : s.sceneState <;> cases hb : s.birthdayMode <;> simp [hg, hs, hb]

/-- Witness for C1: in the initial (CHAOS) state a gallery-toggle click
changes nothing. -/
theorem galleryEntry_requires_formed_nonbirthday_witness :
    galleryToggleClick appState0 = appState0 :=
  (galleryEntry_requires_formed_nonbirthday appState0 rfl).1 (Or.inl (by decide))

/-- C10: a successful entry into gallery mode through the toggle sets
`currentPhotoIndex` to 0, and in both directions the toggle changes no
field other than `galleryMode` and `currentPhotoIndex`: `sceneState`,
`birthdayMode`, `photoCount` (as well as `rotationSpeed`, `aiStatus`
and `debugMode`) are preserved, and on exit even `currentPhotoIndex`
is untouched. -/
theorem galleryToggle_frame_effect (s : AppState) :
    (s.galleryMode = false → (handleGalleryToggle s).galleryMode = true →
      (handleGalleryToggle s).currentPhotoIndex = 0) ∧
    (handleGalleryToggle s).sceneState = s.sceneState ∧
    (handleGalleryToggle s).birthdayMode = s.birthdayMode ∧
    (handleGalleryToggle s).photoCount = s.photoCount ∧
    (handleGalleryToggle s).rotationSpeed = s.rotationSpeed ∧
    (handleGalleryToggle s).aiStatus = s.aiStatus ∧
    (handleGalleryToggle s).debugMode = s.debugMode ∧
    (s.galleryMode = true →
      (handleGalleryToggle s).currentPhotoIndex = s.currentPhotoIndex) := by
  unfold handleGalleryToggle
  cases hg : s.galleryMode <;> cases hs : s.sceneState <;> simp [hg, hs]

/-- Witness for C10: entering the gallery from the FORMED initial state
focuses photo 0. -/
theorem galleryToggle_frame_effect_witness :
    (handleGalleryToggle appStateFormed).currentPhotoIndex = 0 :=
  (galleryToggle_frame_effect appStateFormed).1 rfl (by decide)

/-- C4: for every photo index in `[0, totalGalleryPhotos)`, the
next-photo handler computes `(i + 1) mod totalGalleryPhotos` and the
previous-photo handler computes `(i - 1 + totalGalleryPhotos) mod
totalGalleryPhotos`; both results stay inside `[0,
totalGalleryPhotos)`, decrementing from 0 wraps to
`totalGalleryPhotos - 1`, and incrementing from
`totalGalleryPhotos - 1` wraps to 0. -/
theorem galleryIndex_modular_wrap (s : AppState)
    (h0 : 0 ≤ s.currentPhotoIndex)
    (h1 : s.currentPhotoIndex < totalGalleryPhotos) :
    (handleNextPhoto s).currentPhotoIndex =
      (s.currentPhotoIndex + 1) % totalGalleryPhotos ∧
    (handlePrevPhoto s).currentPhotoIndex =
      (s.currentPhotoIndex - 1 + totalGalleryPhotos) % totalGalleryPhotos ∧
    0 ≤ (handleNextPhoto s).currentPhotoIndex ∧
    (handleNextPhoto s).currentPhotoIndex < totalGalleryPhotos ∧
    0 ≤ (handlePrevPhoto s).currentPhotoIndex ∧
    (handlePrevPhoto s).currentPhotoIndex < totalGalleryPhotos ∧
    (s.currentPhotoIndex = 0 →
      (handlePrevPhoto s).currentPhotoIndex = totalGalleryPhotos - 1) ∧
    (s.currentPhotoIndex = totalGalleryPhotos - 1 →
      (handleNextPhoto s).currentPhotoIndex = 0) := by
  unfold handleNextPhoto handlePrevPhoto totalGalleryPhotos TOTAL_NUMBERED_PHOTOS at *
  simp only [AppState.mk.injEq]
  rw [Int.tmod_eq_emod (by omega) (by omega), Int.tmod_eq_emod (by omega) (by omega)]
  omega

/-- Witness for C4: incrementing from the last slot (51) wraps to 0. -/
theorem galleryIndex_modular_wrap_witness :
    (handleNextPhoto appStateLast).currentPhotoIndex = 0 :=
  (galleryIndex_modular_wrap appStateLast (by decide) (by decide)).2.2.2.2.2.2.2
    (by decide)

/-- C9: a non-empty upload attempted with no remaining slots (limit 52)
raises the blocking alert and changes no state at all; with slots
remaining, the stored count grows by the number of files capped to the
remaining slots and never exceeds the limit (and the limit alert does
not fire). -/
theorem photoUpload_limit_behavior (s : AppState) (n : ℕ) (hn : 0 < n) :
    (TOTAL_NUMBERED_PHOTOS - s.photoCount ≤ 0 →
      handlePhotoUpload s n = (s, true)) ∧
    (0 < TOTAL_NUMBERED_PHOTOS - s.photoCount →
      (handlePhotoUpload s n).2 = false ∧
      (handlePhotoUpload s n).1.photoCount =
        s.photoCount + min (n : ℤ) (TOTAL_NUMBERED_PHOTOS - s.photoCount) ∧
      (handlePhotoUpload s n).1.photoCount ≤ TOTAL_NUMBERED_PHOTOS ∧
      (handlePhotoUpload s n).1.galleryMode = s.galleryMode ∧
      (handlePhotoUpload s n).1.sceneState = s.sceneState) := by
  unfold handlePhotoUpload
  constructor
  · intro h
    rw [if_neg (by omega), if_pos h]
  · intro h
    rw [if_neg (by omega), if_neg (by omega)]
    refine ⟨rfl, ?_, ?_, rfl, rfl⟩ <;> simp only [] <;> omega

/-- Witness for C9: uploading one more file at the stored limit of 52
fires the alert and leaves the state unchanged. -/
theorem photoUpload_limit_behavior_witness :
    handlePhotoUpload appStateFull 1 = (appStateFull, true) :=
  (photoUpload_limit_behavior appStateFull 1 (by decide)).1 (by decide)

/-- No-hand frame (App.tsx lines 657-662): counter and label reset,
latched state untouched, no event. -/
theorem debounceStep_none (st : GestureState) :
    debounceStep st none =
      ({ lastGesture := none, gestureCount := 0, currentState := st.currentState },
       none) := rfl

/-- Low-confidence frame (App.tsx lines 646-651): counter and label
reset, latched state untouched, no event. -/
theorem debounceStep_lowScore (st : GestureState) (s : GestureSample)
    (h : ¬ s.score > 0.5) :
    debounceStep st (some s) =
      ({ lastGesture := none, gestureCount := 0, currentState := st.currentState },
       none) := by
  simp [debounceStep, h]

/-- Qualifying frame whose label differs from `lastGesture`: the label
is replaced and the counter restarts at 1; no event fires. -/
theorem debounceStep_mismatch (st : GestureState) (s : GestureSample)
    (hsc : s.score > 0.5) (hm : ¬ st.lastGesture = some s.categoryName) :
    debounceStep st (some s) =
      ({ lastGesture := some s.categoryName, gestureCount := 1,
         currentState := st.currentState }, none) := by
  simp [debounceStep, hsc, hm]

/-- Qualifying matching frame that does not yet push the counter above
5: the counter increments and nothing else happens. -/
theorem debounceStep_match_low (st : GestureState) (s : GestureSample)
    (hsc : s.score > 0.5) (hm : st.lastGesture = some s.categoryName)
    (h6 : ¬ st.gestureCount + 1 > 5) :
    debounceStep st (some s) =
      ({ lastGesture := st.lastGesture, gestureCount := st.gestureCount + 1,
         currentState := st.currentState }, none) := by
  simp [debounceStep, hsc, hm, h6]

/-- Qualifying matching frame pushing the counter above 5 with an
unmapped gesture name: no event. -/
theorem debounceStep_match_high_unmapped (st : GestureState) (s : GestureSample)
    (hsc : s.score > 0.5) (hm : st.lastGesture = some s.categoryName)
    (h6 : st.gestureCount + 1 > 5) (ht : gestureTargetState s.categoryName = none) :
    debounceStep st (some s) =
      ({ lastGesture := st.lastGesture, gestureCount := st.gestureCount + 1,
         currentState := st.currentState }, none) := by
  simp [debounceStep, hsc, hm, h6, ht]

/-- Qualifying matching frame pushing the counter above 5 whose mapped
state is already latched: no event. -/
theorem debounceStep_match_high_latched (st : GestureState) (s : GestureSample)
    (hsc : s.score > 0.5) (hm : st.lastGesture = some s.categoryName)
    (h6 : st.gestureCount + 1 > 5) (t : SceneState)
    (ht : gestureTargetState s.categoryName = some t)
    (hcur : st.currentState = some t) :
    debounceStep st (some s) =
      ({ lastGesture := st.lastGesture, gestureCount := st.gestureCount + 1,
         currentState := st.currentState }, none) := by
  simp [debounceStep, hsc, hm, h6, ht, hcur]

/-- Qualifying matching frame pushing the counter above 5 whose mapped
state differs from the latched one: the event fires and is latched. -/
theorem debounceStep_match_high_emit (st : GestureState) (s : GestureSample)
    (hsc : s.score > 0.5) (hm : st.lastGesture = some s.categoryName)
    (h6 : st.gestureCount + 1 > 5) (t : SceneState)
    (ht : gestureTargetState s.categoryName = some t)
    (hcur : ¬ st.currentState = some t) :
    debounceStep st (some s) =
      ({ lastGesture := st.lastGesture, gestureCount := st.gestureCount + 1,
         currentState := some t }, some t) := by
  simp [debounceStep, hsc, hm, h6, ht, hcur]

/-- One debounce frame preserves `gestureInv`. -/
theorem gestureInv_step (st : GestureState) (x : Option GestureSample)
    (_hinv : gestureInv st) : gestureInv (debounceStep st x).1 := by
  cases x with
  | none =>
    rw [debounceStep_none]
    intro n t h5 _ _
    simp at h5
  | some s =>
    by_cases hsc : s.score > 0.5
    · by_cases hm : st.lastGesture = some s.categoryName
      · by_cases h6 : st.gestureCount + 1 > 5
        · cases ht : gestureTargetState s.categoryName with
          | none =>
            rw [debounceStep_match_high_unmapped st s hsc hm h6 ht]
            intro n t _ hlg htgt
            rw [hm] at hlg
            injection hlg with hn
            subst hn
            rw [ht] at htgt
            exact absurd htgt (by simp)
          | some t0 =>
            by_cases hcur : st.currentState = some t0
            · rw [debounceStep_match_high_latched st s hsc hm h6 t0 ht hcur]
              intro n t _ hlg htgt
              rw [hm] at hlg
              injection hlg with hn
              subst hn
              rw [ht] at htgt
              injection htgt with htt
              subst htt
              exact hcur
            · rw [debounceStep_match_high_emit st s hsc hm h6 t0 ht hcur]
              intro n t _ hlg htgt
              rw [hm] at hlg
              injection hlg with hn
              subst hn
              rw [ht] at htgt
              injection htgt with htt
              subst htt
              rfl
        · rw [debounceStep_match_low st s hsc hm h6]
          intro n t h5 _ _
          exact absurd (by simpa using h5) h6
      · rw [debounceStep_mismatch st s hsc hm]
        intro n t h5 _ _
        simp at h5
    · rw [debounceStep_lowScore st s hsc]
      intro n t h5 _ _
      simp at h5

/-- Every reachable debounce state satisfies `gestureInv`. -/
theorem gestureInv_run (xs : List (Option GestureSample)) :
    gestureInv (debounceRun xs) := by
  have h : ∀ (l : List (Option GestureSample)) (st : GestureState), gestureInv st →
      gestureInv (l.foldl (fun st x => (debounceStep st x).1) st) := by
    intro l
    induction l with
    | nil => intro st h; exact h
    | cons a l ih => intro st h; exact ih _ (gestureInv_step st a h)
  refine h _ _ ?_
  intro n t h5 _ _
  simp [initialGestureState] at h5

/-- Emission properties of one debounce frame from any state satisfying
the invariant. -/
theorem debounce_emit_props (st : GestureState) (hinv : gestureInv st)
    (x : Option GestureSample) :
    (∀ ev, (debounceStep st x).2 = some ev →
      (debounceStep st x).1.gestureCount = 6 ∧ st.gestureCount = 5) ∧
    ((debounceStep st x).1.gestureCount ≤ 5 → (debounceStep st x).2 = none) ∧
    (∀ s, x = some s → s.score > 0.5 → st.lastGesture ≠ some s.categoryName →
      (debounceStep st x).1.gestureCount = 1 ∧ (debounceStep st x).2 = none) ∧
    (∀ ev, (debounceStep st x).2 = some ev →
      st.currentState ≠ some ev ∧
      ∃ s, x = some s ∧ gestureTargetState s.categoryName = some ev) := by
  cases x with
  | none =>
    rw [debounceStep_none]
    refine ⟨?_, ?_, ?_, ?_⟩
    · intro ev h; simp at h
    · intro _; rfl
    · intro s h; simp at h
    · intro ev h; simp at h
  | some s =>
    by_cases hsc : s.score > 0.5
    · by_cases hm : st.lastGesture = some s.categoryName
      · by_cases h6 : st.gestureCount + 1 > 5
        · cases ht : gestureTargetState s.categoryName with
          | none =>
            rw [debounceStep_match_high_unmapped st s hsc hm h6 ht]
            refine ⟨?_, ?_, ?_, ?_⟩
            · intro ev h; simp at h
            · intro _; rfl
            · intro s2 h2 _ hmm; injection h2 with hs2; subst hs2; exact absurd hm hmm
            · intro ev h; simp at h
          | some t0 =>
            by_cases hcur : st.currentState = some t0
            · rw [debounceStep_match_high_latched st s hsc hm h6 t0 ht hcur]
              refine ⟨?_, ?_, ?_, ?_⟩
              · intro ev h; simp at h
              · intro _; rfl
              · intro s2 h2 _ hmm; injection h2 with hs2; subst hs2; exact absurd hm hmm
              · intro ev h; simp at h
            · rw [debounceStep_match_high_emit st s hsc hm h6 t0 ht hcur]
              have hc5 : st.gestureCount = 5 := by
                by_contra hne
                have hgt : st.gestureCount > 5 := by omega
                exact hcur (hinv s.categoryName t0 hgt hm ht)
              refine ⟨?_, ?_, ?_, ?_⟩
              · intro ev h
                injection h with hev
                subst hev
                exact ⟨by simp [hc5], hc5⟩
              · intro h; simp [hc5] at h
              · intro s2 h2 _ hmm; injection h2 with hs2; subst hs2; exact absurd hm hmm
              · intro ev h
                injection h with hev
                subst hev
                exact ⟨hcur, s, rfl, ht⟩
        · rw [debounceStep_match_low st s hsc hm h6]
          refine ⟨?_, ?_, ?_, ?_⟩
          · intro ev h; simp at h
          · intro _; rfl
          · intro s2 h2 _ hmm; injection h2 with hs2; subst hs2; exact absurd hm hmm
          · intro ev h; simp at h
      · rw [debounceStep_mismatch st s hsc hm]
        refine ⟨?_, ?_, ?_, ?_⟩
        · intro ev h; simp at h
        · intro _; rfl
        · intro s2 h2 _ _; injection h2 with hs2; subst hs2; exact ⟨rfl, rfl⟩
        · intro ev h; simp at h
    · rw [debounceStep_lowScore st s hsc]
      refine ⟨?_, ?_, ?_, ?_⟩
      · intro ev h; simp at h
      · intro _; rfl
      · intro s2 h2 hsc2 _
        injection h2 with hs2
        subst hs2
        exact absurd hsc2 hsc
      · intro ev h; simp at h

/-- C2: over any sequence of per-frame classification samples, a
transition event fires only on the sample that pushes the
consecutive-match counter above 5 (the counter is then exactly 6, so
this is the 6th consecutive qualifying sample of that label); whenever
the counter stays at or below 5 no event fires; a qualifying sample
whose label differs from the previous one restarts the counter at 1
without firing; and any fired event comes from the mapped state of the
sample's label (`Open_Palm` to CHAOS, `Closed_Fist` to FORMED via
`gestureTargetState`) and differs from the currently latched state. -/
theorem gestureDebounce_emission_rule (xs : List (Option GestureSample))
    (sample : Option GestureSample) :
    (∀ ev, (debounceStep (debounceRun xs) sample).2 = some ev →
      (debounceStep (debounceRun xs) sample).1.gestureCount = 6 ∧
      (debounceRun xs).gestureCount = 5) ∧
    ((debounceStep (debounceRun xs) sample).1.gestureCount ≤ 5 →
      (debounceStep (debounceRun xs) sample).2 = none) ∧
    (∀ s, sample = some s → s.score > 0.5 →
      (debounceRun xs).lastGesture ≠ some s.categoryName →
      (debounceStep (debounceRun xs) sample).1.gestureCount = 1 ∧
      (debounceStep (debounceRun xs) sample).2 = none) ∧
    (∀ ev, (debounceStep (debounceRun xs) sample).2 = some ev →
      (debounceRun xs).currentState ≠ some ev ∧
      ∃ s, sample = some s ∧ gestureTargetState s.categoryName = some ev) :=
  debounce_emit_props (debounceRun xs) (gestureInv_run xs) sample

/-- The confident samples clear the 0.5 threshold. -/
theorem fistSample_score : fistSample.score > 0.5 := by norm_num [fistSample]

/-- The confident Open_Palm sample clears the 0.5 threshold. -/
theorem palmSample_score : palmSample.score > 0.5 := by norm_num [palmSample]

/-- A matching confident Closed_Fist frame just increments a small
counter. -/
theorem fistStep_incr (k : ℕ) (hk : k + 1 ≤ 5) :
    (debounceStep ⟨some fistSample.categoryName, k, none⟩ (some fistSample)).1 =
      ⟨some fistSample.categoryName, k + 1, none⟩ := by
  rw [debounceStep_match_low _ _ fistSample_score rfl ((by omega : ¬ k + 1 > 5))]

/-- Concrete run: five confident Closed_Fist frames from the initial
state leave the counter at 5 with nothing latched. -/
theorem debounceRun_fistFrames5 :
    debounceRun fistFrames5 = ⟨some fistSample.categoryName, 5, none⟩ := by
  have h0 : (debounceStep initialGestureState (some fistSample)).1 =
      ⟨some fistSample.categoryName, 1, none⟩ := by
    rw [debounceStep_mismatch _ _ fistSample_score (by simp [initialGestureState])]
    rfl
  simp only [debounceRun, fistFrames5, List.foldl]
  rw [h0, fistStep_incr 1 (by omega), fistStep_incr 2 (by omega),
    fistStep_incr 3 (by omega), fistStep_incr 4 (by omega)]

/-- Concrete step: the sixth confident Closed_Fist frame fires FORMED. -/
theorem debounce_sixth_fist_emits :
    debounceStep (debounceRun fistFrames5) (some fistSample) =
      (⟨some fistSample.categoryName, 6, some SceneState.FORMED⟩,
       some SceneState.FORMED) := by
  rw [debounceRun_fistFrames5,
    debounceStep_match_high_emit _ _ fistSample_score rfl
      ((by omega : 5 + 1 > 5)) SceneState.FORMED (by decide) (by decide)]

/-- Witness for C2: after five confident Closed_Fist frames, a sixth
one fires an event with the counter at exactly 6. -/
theorem gestureDebounce_emission_rule_witness :
    (debounceStep (debounceRun fistFrames5) (some fistSample)).1.gestureCount = 6 ∧
    (debounceRun fistFrames5).gestureCount = 5 :=
  (gestureDebounce_emission_rule fistFrames5 (some fistSample)).1
    SceneState.FORMED (by rw [debounce_sixth_fist_emits])

/-- Concrete run: three confident Open_Palm frames from the initial
state leave the counter at 3. -/
theorem debounceRun_palmFrames3 :
    debounceRun palmFrames3 = ⟨some palmSample.categoryName, 3, none⟩ := by
  have h0 : (debounceStep initialGestureState (some palmSample)).1 =
      ⟨some palmSample.categoryName, 1, none⟩ := by
    rw [debounceStep_mismatch _ _ palmSample_score (by simp [initialGestureState])]
    rfl
  have h1 : ∀ k : ℕ, ¬ k + 1 > 5 →
      (debounceStep ⟨some palmSample.categoryName, k, none⟩ (some palmSample)).1 =
        ⟨some palmSample.categoryName, k + 1, none⟩ := by
    intro k hk
    rw [debounceStep_match_low _ _ palmSample_score rfl hk]
  simp only [debounceRun, palmFrames3, List.foldl]
  rw [h0, h1 1 (by omega), h1 2 (by omega)]

/-- Counterexample for C3: after three confident Open_Palm frames, a
confident Closed_Fist frame (a qualifying sample whose label mismatches
the previous one) sets the counter to 1 and the label to the new
gesture name; it does not reset them to zero and null as the claim
states. -/
theorem gestureMismatch_not_zero_reset :
    (debounceStep (debounceRun palmFrames3) (some fistSample)).1.gestureCount = 1 ∧
    (debounceStep (debounceRun palmFrames3) (some fistSample)).1.lastGesture =
      some fistSample.categoryName ∧
    ¬ ((debounceStep (debounceRun palmFrames3) (some fistSample)).1.gestureCount = 0 ∧
       (debounceStep (debounceRun palmFrames3) (some fistSample)).1.lastGesture =
         none) := by
  have h : debounceStep (debounceRun palmFrames3) (some fistSample) =
      (⟨some fistSample.categoryName, 1, none⟩, none) := by
    rw [debounceRun_palmFrames3, debounceStep_mismatch _ _ fistSample_score (by decide)]
  rw [h]
  exact ⟨rfl, rfl, by simp⟩

/-- C3 (amended): a sample with confidence at or below 0.5 leaves no
effect other than resetting the consecutive-match counter to zero and
the last-gesture label to null (the latched state is untouched and no
event fires); a qualifying sample (confidence above 0.5) whose label
mismatches the previous label sets the counter to 1 and the label to
the new gesture name (again with the latched state untouched and no
event fired). -/
theorem gestureSample_reset_amended (st : GestureState) (s : GestureSample) :
    (s.score ≤ 0.5 →
      (debounceStep st (some s)).1.gestureCount = 0 ∧
      (debounceStep st (some s)).1.lastGesture = none ∧
      (debounceStep st (some s)).1.currentState = st.currentState ∧
      (debounceStep st (some s)).2 = none) ∧
    (s.score > 0.5 → st.lastGesture ≠ some s.categoryName →
      (debounceStep st (some s)).1.gestureCount = 1 ∧
      (debounceStep st (some s)).1.lastGesture = some s.categoryName ∧
      (debounceStep st (some s)).1.currentState = st.currentState ∧
      (debounceStep st (some s)).2 = none) := by
  constructor
  · intro hle
    rw [debounceStep_lowScore st s (not_lt.mpr hle)]
    exact ⟨rfl, rfl, rfl, rfl⟩
  · intro hsc hm
    rw [debounceStep_mismatch st s hsc hm]
    exact ⟨rfl, rfl, rfl, rfl⟩

/-- Witness for the amended C3: a weak Open_Palm frame clears the refs,
and a confident Closed_Fist frame after three Open_Palm frames restarts
the counter at 1. -/
theorem gestureSample_reset_amended_witness :
    (debounceStep (debounceRun palmFrames3) (some weakPalmSample)).1.gestureCount = 0 ∧
    (debounceStep (debounceRun palmFrames3) (some fistSample)).1.gestureCount = 1 :=
  ⟨((gestureSample_reset_amended (debounceRun palmFrames3) weakPalmSample).1
      (by norm_num [weakPalmSample])).1,
   ((gestureSample_reset_amended (debounceRun palmFrames3) fistSample).2
      fistSample_score (by rw [debounceRun_palmFrames3]; decide)).1⟩

/-- Members of the unique-photo accumulator point past the start
offset at PHOTO particles whose texture index is fresh. -/
theorem uniquePhotoIndicesAux_mem (l : List ParticleData) :
    ∀ (i : ℕ) (seen : List ℕ) (j : ℕ), j ∈ uniquePhotoIndicesAux l i seen →
      i ≤ j ∧ j - i < l.length ∧
      (l.getD (j - i) defaultParticle).type = ElementType.PHOTO ∧
      (l.getD (j - i) defaultParticle).textureIndex ∉ seen := by
  induction l with
  | nil =>
    intro i seen j hj
    simp [uniquePhotoIndicesAux] at hj
  | cons d rest ih =>
    intro i seen j hj
    rw [uniquePhotoIndicesAux] at hj
    by_cases hc : d.type = ElementType.PHOTO ∧ d.textureIndex ∉ seen
    · rw [if_pos hc] at hj
      rcases List.mem_cons.mp hj with hj0 | hj1
      · subst hj0
        rw [Nat.sub_self, List.getD_cons_zero]
        exact ⟨le_refl j, by simp, hc.1, hc.2⟩
      · obtain ⟨hle, hlen, hty, htex⟩ := ih (i + 1) (d.textureIndex :: seen) j hj1
        have hsub : j - i = (j - (i + 1)) + 1 := by omega
        refine ⟨by omega, by simp only [List.length_cons]; omega, ?_, ?_⟩
        · rw [hsub, List.getD_cons_succ]
          exact hty
        · rw [hsub, List.getD_cons_succ]
          intro hmem
          exact htex (List.mem_cons_of_mem _ hmem)
    · rw [if_neg hc] at hj
      obtain ⟨hle, hlen, hty, htex⟩ := ih (i + 1) seen j hj
      have hsub : j - i = (j - (i + 1)) + 1 := by omega
      refine ⟨by omega, by simp only [List.length_cons]; omega, ?_, ?_⟩
      · rw [hsub, List.getD_cons_succ]
        exact hty
      · rw [hsub, List.getD_cons_succ]
        exact htex

/-- Two distinct members of the unique-photo accumulator carry
distinct texture indices. -/
theorem uniquePhotoIndicesAux_tex_distinct (l : List ParticleData) :
    ∀ (i : ℕ) (seen : List ℕ) (j k : ℕ),
      j ∈ uniquePhotoIndicesAux l i seen → k ∈ uniquePhotoIndicesAux l i seen →
      j ≠ k →
      (l.getD (j - i) defaultParticle).textureIndex ≠
        (l.getD (k - i) defaultParticle).textureIndex := by
  induction l with
  | nil =>
    intro i seen j k hj _ _
    simp [uniquePhotoIndicesAux] at hj
  | cons d rest ih =>
    intro i seen j k hj hk hne
    rw [uniquePhotoIndicesAux] at hj hk
    by_cases hc : d.type = ElementType.PHOTO ∧ d.textureIndex ∉ seen
    · rw [if_pos hc] at hj hk
      rcases List.mem_cons.mp hj with hj0 | hj1 <;>
        rcases List.mem_cons.mp hk with hk0 | hk1
      · exact absurd (hj0.trans hk0.symm) hne
      · obtain ⟨hle, _, _, htex⟩ :=
          uniquePhotoIndicesAux_mem rest (i + 1) (d.textureIndex :: seen) k hk1
        have hsub : k - i = (k - (i + 1)) + 1 := by omega
        rw [hj0, Nat.sub_self, List.getD_cons_zero, hsub, List.getD_cons_succ]
        intro heq
        exact htex (by rw [← heq]; exact List.mem_cons_self _ _)
      · obtain ⟨hle, _, _, htex⟩ :=
          uniquePhotoIndicesAux_mem rest (i + 1) (d.textureIndex :: seen) j hj1
        have hsub : j - i = (j - (i + 1)) + 1 := by omega
        rw [hk0, Nat.sub_self, List.getD_cons_zero, hsub, List.getD_cons_succ]
        intro heq
        exact htex (by rw [heq]; exact List.mem_cons_self _ _)
      · have hrec := ih (i + 1) (d.textureIndex :: seen) j k hj1 hk1 hne
        have hlej :=
          (uniquePhotoIndicesAux_mem rest (i + 1) (d.textureIndex :: seen) j hj1).1
        have hlek :=
          (uniquePhotoIndicesAux_mem rest (i + 1) (d.textureIndex :: seen) k hk1).1
        have hsubj : j - i = (j - (i + 1)) + 1 := by omega
        have hsubk : k - i = (k - (i + 1)) + 1 := by omega
        rw [hsubj, hsubk, List.getD_cons_succ, List.getD_cons_succ]
        exact hrec
    · rw [if_neg hc] at hj hk
      have hrec := ih (i + 1) seen j k hj hk hne
      have hlej := (uniquePhotoIndicesAux_mem rest (i + 1) seen j hj).1
      have hlek := (uniquePhotoIndicesAux_mem rest (i + 1) seen k hk).1
      have hsubj : j - i = (j - (i + 1)) + 1 := by omega
      have hsubk : k - i = (k - (i + 1)) + 1 := by omega
      rw [hsubj, hsubk, List.getD_cons_succ, List.getD_cons_succ]
      exact hrec

/-- C6: in gallery mode exactly the unique per-texture photo particles
are visible after a frame update — particle `i` is visible iff `i` is
one of the unique-photo indices, every unique-photo index points at a
PHOTO particle, and two distinct unique-photo indices always carry
distinct texture indices (at most one particle per texture); outside
gallery mode every particle is visible. -/
theorem galleryVisibility_unique_photos (data : List ParticleData) (i : ℕ) :
    (particleVisible true data i = true ↔ i ∈ uniquePhotoIndices data) ∧
    (∀ j, j ∈ uniquePhotoIndices data →
      j < data.length ∧ (data.getD j defaultParticle).type = ElementType.PHOTO) ∧
    (∀ j k, j ∈ uniquePhotoIndices data → k ∈ uniquePhotoIndices data → j ≠ k →
      (data.getD j defaultParticle).textureIndex ≠
        (data.getD k defaultParticle).textureIndex) ∧
    particleVisible false data i = true := by
  refine ⟨?_, ?_, ?_, rfl⟩
  · simp [particleVisible, List.elem_iff]
  · intro j hj
    obtain ⟨_, hlen, hty, _⟩ := uniquePhotoIndicesAux_mem data 0 [] j hj
    rw [Nat.sub_zero] at hlen hty
    exact ⟨hlen, hty⟩
  · intro j k hj hk hne
    have h := uniquePhotoIndicesAux_tex_distinct data 0 [] j k hj hk hne
    rwa [Nat.sub_zero, Nat.sub_zero] at h

/-- Witness for C6: on the demo list the unique-photo indices are 0 and
3, index 0 is visible in gallery mode and points at a PHOTO, and the
duplicate photo 2 is hidden. -/
theorem galleryVisibility_unique_photos_witness :
    0 < demoParticles.length ∧
    (demoParticles.getD 0 defaultParticle).type = ElementType.PHOTO :=
  (galleryVisibility_unique_photos demoParticles 0).2.1 0 (by decide)

/-- C5: for every positive unique-photo count N and every focused
index, the gallery projector places photo i on the horizontal ring of
fixed radius 20 at angle 2π·i/N − 2π·focused/N, and the focused photo
itself at angle 0, that is at (0, 0, 20) on the positive forward (z)
axis, regardless of the focused index. -/
theorem galleryProjector_focused_front (N focusedIndex : ℕ) (_hN : 0 < N) :
    (∀ i : ℕ, getGalleryPosition i N focusedIndex =
      (Real.sin (2 * Real.pi * i / N - 2 * Real.pi * focusedIndex / N) * 20, 0,
       Real.cos (2 * Real.pi * i / N - 2 * Real.pi * focusedIndex / N) * 20)) ∧
    2 * Real.pi * (focusedIndex : ℝ) / N - 2 * Real.pi * (focusedIndex : ℝ) / N = 0 ∧
    getGalleryPosition focusedIndex N focusedIndex = (0, 0, 20) := by
  have hangle : ∀ i : ℕ, ((i : ℝ) / (N : ℝ)) * Real.pi * 2 -
      ((focusedIndex : ℝ) / (N : ℝ)) * Real.pi * 2 =
      2 * Real.pi * (i : ℝ) / N - 2 * Real.pi * (focusedIndex : ℝ) / N := by
    intro i
    ring
  refine ⟨?_, by ring, ?_⟩
  · intro i
    simp only [getGalleryPosition]
    rw [hangle i]
  · simp only [getGalleryPosition]
    rw [sub_self, Real.sin_zero, Real.cos_zero]
    norm_num

/-- Witness for C5: with a single photo and focus 0 the focused photo
sits at (0, 0, 20). -/
theorem galleryProjector_focused_front_witness :
    getGalleryPosition 0 1 0 = (0, 0, 20) :=
  (galleryProjector_focused_front 1 0 (by omega)).2.2

/-- The whisker row tilt is always smaller than a quarter turn. -/
theorem whiskerRowTilt_lt_half_pi (row : ℕ) : whiskerRowTilt row < Real.pi / 2 := by
  unfold whiskerRowTilt
  split_ifs <;> nlinarith [Real.pi_gt_three]

/-- Evaluation of the whisker branch of the layout generator: type and
z-rotation for indices 3 through 8, by side. -/
theorem kittyWhisker_eval (index : ℕ) (rand : ℕ → ℚ) (h3 : 3 ≤ index)
    (h8 : index ≤ 8) :
    (getHelloKittyData index rand).type = ElementType.WHISKER ∧
    (getHelloKittyData index rand).rotation.z =
      (if index < 6 then Real.pi / 2 - whiskerRowTilt ((index - 3) % 3)
       else -Real.pi / 2 + whiskerRowTilt ((index - 3) % 3)) := by
  unfold getHelloKittyData
  rw [if_neg (by omega : ¬ (index = 0 ∨ index = 1)),
      if_neg (by omega : ¬ index = 2),
      if_pos (show 3 ≤ index ∧ index ≤ 8 from ⟨h3, h8⟩)]
  dsimp only
  refine ⟨rfl, ?_⟩
  by_cases h6 : index < 6
  · rw [if_pos h6, if_pos h6, if_neg (by decide : ¬ (-1 : ℤ) = 1)]
  · rw [if_neg h6, if_neg h6, if_pos (rfl : (1 : ℤ) = 1)]

/-- C7: the layout generator returns type EYE for indices 0 and 1,
NOSE for index 2 and WHISKER for indices 3 through 8; whiskers on the
left side (indices 3-5) get the positive base z-rotation π/2 minus the
row tilt, whiskers on the right side (indices 6-8) the negative base
z-rotation −π/2 plus the row tilt, so the sign of the z-rotation
follows the side. -/
theorem kittyLayout_features (index : ℕ) (rand : ℕ → ℚ) :
    (index = 0 ∨ index = 1 → (getHelloKittyData index rand).type = ElementType.EYE) ∧
    (index = 2 → (getHelloKittyData index rand).type = ElementType.NOSE) ∧
    (3 ≤ index → index ≤ 8 →
      (getHelloKittyData index rand).type = ElementType.WHISKER ∧
      (index ≤ 5 →
        (getHelloKittyData index rand).rotation.z =
          Real.pi / 2 - whiskerRowTilt ((index - 3) % 3) ∧
        0 < (getHelloKittyData index rand).rotation.z) ∧
      (6 ≤ index →
        (getHelloKittyData index rand).rotation.z =
          -Real.pi / 2 + whiskerRowTilt ((index - 3) % 3) ∧
        (getHelloKittyData index rand).rotation.z < 0)) := by
  refine ⟨?_, ?_, ?_⟩
  · intro h
    unfold getHelloKittyData
    rw [if_pos h]
  · intro h
    subst h
    unfold getHelloKittyData
    rw [if_neg (by omega : ¬ ((2 : ℕ) = 0 ∨ (2 : ℕ) = 1)), if_pos rfl]
  · intro h3 h8
    obtain ⟨hty, hz⟩ := kittyWhisker_eval index rand h3 h8
    have htilt := whiskerRowTilt_lt_half_pi ((index - 3) % 3)
    refine ⟨hty, fun h5 => ?_, fun h6 => ?_⟩
    · have hlt : index < 6 := by omega
      rw [hz, if_pos hlt]
      exact ⟨rfl, by linarith⟩
    · have hge : ¬ index < 6 := by omega
      rw [hz, if_neg hge]
      exact ⟨rfl, by linarith⟩

/-- Witness for C7: index 3 is a left whisker with positive
z-rotation, index 6 a right whisker with negative z-rotation. -/
theorem kittyLayout_features_witness :
    (0 < (getHelloKittyData 3 zeroRandQ).rotation.z) ∧
    ((getHelloKittyData 6 zeroRandQ).rotation.z < 0) :=
  ⟨(((kittyLayout_features 3 zeroRandQ).2.2 (by omega) (by omega)).2.1
      (by omega)).2,
   (((kittyLayout_features 6 zeroRandQ).2.2 (by omega) (by omega)).2.2
      (by omega)).2⟩

/-- Rotation about the z axis followed by a common translation
preserves squared distances. -/
theorem distSq_rotateZ_vadd (ang : ℝ) (p c t : ℝ × ℝ × ℝ) :
    distSq (v3add (rotateZ ang p) t) (v3add (rotateZ ang c) t) = distSq p c := by
  obtain ⟨p1, p2, p3⟩ := p
  obtain ⟨c1, c2, c3⟩ := c
  obtain ⟨t1, t2, t3⟩ := t
  simp only [distSq, v3add, rotateZ]
  have hsc := Real.sin_sq_add_cos_sq ang
  linear_combination ((p1 - c1) ^ 2 + (p2 - c2) ^ 2) * hsc

/-- Squared distance of a translated point to the translation base. -/
theorem distSq_vadd_self (q c : ℝ × ℝ × ℝ) :
    distSq (v3add q c) c = q.1 ^ 2 + q.2.1 ^ 2 + q.2.2 ^ 2 := by
  obtain ⟨q1, q2, q3⟩ := q
  obtain ⟨c1, c2, c3⟩ := c
  simp only [distSq, v3add]
  ring

/-- The center bow lobe sample stays within squared radius 0.25. -/
theorem bow_center_lobe_bound (θ φ : ℝ) :
    ((0.5 : ℝ) * Real.sin φ * Real.cos θ * 1) ^ 2 +
      ((0.5 : ℝ) * Real.sin φ * Real.sin θ * 1) ^ 2 +
      ((0.5 : ℝ) * Real.cos φ * 0.5) ^ 2 ≤ 0.5 ^ 2 := by
  have h1 := Real.sin_sq_add_cos_sq θ
  have h2 := Real.sin_sq_add_cos_sq φ
  nlinarith [sq_nonneg (Real.sin φ * Real.cos θ), sq_nonneg (Real.sin φ * Real.sin θ),
    sq_nonneg (Real.cos φ), sq_nonneg (Real.sin φ)]

/-- A side bow lobe sample (y stretched by 1.2) stays within squared
radius 0.96² = (0.8 · 1.2)². -/
theorem bow_side_lobe_bound (θ φ : ℝ) :
    ((0.8 : ℝ) * Real.sin φ * Real.cos θ * 1) ^ 2 +
      ((0.8 : ℝ) * Real.sin φ * Real.sin θ * 1.2) ^ 2 +
      ((0.8 : ℝ) * Real.cos φ * 0.5) ^ 2 ≤ 0.96 ^ 2 := by
  have h1 := Real.sin_sq_add_cos_sq θ
  have h2 := Real.sin_sq_add_cos_sq φ
  nlinarith [sq_nonneg (Real.sin φ * Real.cos θ), sq_nonneg (Real.sin φ * Real.sin θ),
    sq_nonneg (Real.cos φ), sq_nonneg (Real.sin φ)]

/-- C8 (amended): for every index in [9, 35] and every outcome of the
random draws, the layout generator returns type BOW and a position
that, after the common rotation and bow offset are applied (to sample
and lobe center alike), lies within the union of the three lobe
regions — the center lobe of radius 0.5 and the two side lobes of
effective radius 0.96 = 0.8 · 1.2 (the declared radius 0.8 stretched
by the 1.2 y-scale of the sampling). -/
theorem bowLobe_membership (index : ℕ) (rand : ℕ → ℚ)
    (h9 : 9 ≤ index) (h35 : index ≤ 35)
    (_hr : ∀ n, 0 ≤ rand n ∧ rand n < 1) :
    (getHelloKittyData index rand).type = ElementType.BOW ∧
    (distSq (getHelloKittyData index rand).pos
        (v3add (rotateZ (-0.5) (0, 0, 0)) (3, 2.5, 2.5)) ≤ 0.5 ^ 2 ∨
     distSq (getHelloKittyData index rand).pos
        (v3add (rotateZ (-0.5) (-1.2, 0, 0)) (3, 2.5, 2.5)) ≤ 0.96 ^ 2 ∨
     distSq (getHelloKittyData index rand).pos
        (v3add (rotateZ (-0.5) (1.2, 0, 0)) (3, 2.5, 2.5)) ≤ 0.96 ^ 2) := by
  unfold getHelloKittyData
  rw [if_neg (by omega : ¬ (index = 0 ∨ index = 1)),
      if_neg (by omega : ¬ index = 2),
      if_neg (by omega : ¬ (3 ≤ index ∧ index ≤ 8)),
      if_pos (show 9 ≤ index ∧ index ≤ 35 from ⟨h9, h35⟩)]
  dsimp only
  by_cases hp1 : rand 1 < 0.2
  · rw [if_pos hp1, if_pos hp1, if_pos hp1]
    refine ⟨rfl, Or.inl ?_⟩
    rw [distSq_rotateZ_vadd, distSq_vadd_self]
    exact bow_center_lobe_bound _ _
  · rw [if_neg hp1, if_neg hp1, if_neg hp1]
    by_cases hp2 : rand 1 < 0.6
    · rw [if_pos hp2]
      refine ⟨rfl, Or.inr (Or.inl ?_)⟩
      rw [distSq_rotateZ_vadd, distSq_vadd_self]
      exact bow_side_lobe_bound _ _
    · rw [if_neg hp2]
      refine ⟨rfl, Or.inr (Or.inr ?_)⟩
      rw [distSq_rotateZ_vadd, distSq_vadd_self]
      exact bow_side_lobe_bound _ _

/-- Witness for the amended C8: index 9 with the all-zero stream is a
BOW inside one of the lobe regions. -/
theorem bowLobe_membership_witness :
    (getHelloKittyData 9 zeroRandQ).type = ElementType.BOW ∧
    (distSq (getHelloKittyData 9 zeroRandQ).pos
        (v3add (rotateZ (-0.5) (0, 0, 0)) (3, 2.5, 2.5)) ≤ 0.5 ^ 2 ∨
     distSq (getHelloKittyData 9 zeroRandQ).pos
        (v3add (rotateZ (-0.5) (-1.2, 0, 0)) (3, 2.5, 2.5)) ≤ 0.96 ^ 2 ∨
     distSq (getHelloKittyData 9 zeroRandQ).pos
        (v3add (rotateZ (-0.5) (1.2, 0, 0)) (3, 2.5, 2.5)) ≤ 0.96 ^ 2) :=
  bowLobe_membership 9 zeroRandQ (by omega) (by omega)
    (fun n => ⟨by norm_num [zeroRandQ], by norm_num [zeroRandQ]⟩)

/-- Position of the index-9 bow particle under the counterexample
stream: the sampled point is (0, 0.96, 0) relative to the left lobe
center, the y semi-axis tip of the stretched lobe. -/
theorem bowCE_pos :
    (getHelloKittyData 9 bowRandCE).pos =
      v3add (rotateZ (-0.5) (v3add (0, 0.96, 0) (-1.2, 0, 0))) (3, 2.5, 2.5) := by
  unfold getHelloKittyData
  rw [if_neg (by omega : ¬ ((9 : ℕ) = 0 ∨ (9 : ℕ) = 1)),
      if_neg (by omega : ¬ (9 : ℕ) = 2),
      if_neg (by omega : ¬ (3 ≤ (9 : ℕ) ∧ (9 : ℕ) ≤ 8)),
      if_pos (show 9 ≤ (9 : ℕ) ∧ (9 : ℕ) ≤ 35 by omega)]
  dsimp only
  have hb1 : bowRandCE 1 = 3/10 := rfl
  have hb2 : bowRandCE 2 = 1/4 := rfl
  have hb3 : bowRandCE 3 = 1/2 := rfl
  rw [hb1, hb2, hb3]
  rw [if_neg (by norm_num : ¬ (3/10 : ℚ) < 0.2),
      if_neg (by norm_num : ¬ (3/10 : ℚ) < 0.2),
      if_neg (by norm_num : ¬ (3/10 : ℚ) < 0.2),
      if_pos (by norm_num : (3/10 : ℚ) < 0.6)]
  have hθ : (2 : ℝ) * Real.pi * ((1/4 : ℚ) : ℝ) = Real.pi / 2 := by
    push_cast
    ring
  have hφ : (2 : ℝ) * ((1/2 : ℚ) : ℝ) - 1 = 0 := by
    push_cast
    ring
  rw [hθ, hφ, Real.arccos_zero, Real.sin_pi_div_two, Real.cos_pi_div_two]
  norm_num

/-- Counterexample for C8: with the stream `bowRandCE` the index-9 bow
particle lies outside all three lobe spheres at the radii the claim
states (0.5 for the center lobe, 0.8 for each side lobe): its squared
distance to the transformed left lobe center is 0.9216 = 0.96², which
exceeds 0.8² = 0.64, and the other two centers are farther still. -/
theorem bowLobe_claimed_radii_false :
    ¬ (distSq (getHelloKittyData 9 bowRandCE).pos
          (v3add (rotateZ (-0.5) (0, 0, 0)) (3, 2.5, 2.5)) ≤ 0.5 ^ 2 ∨
       distSq (getHelloKittyData 9 bowRandCE).pos
          (v3add (rotateZ (-0.5) (-1.2, 0, 0)) (3, 2.5, 2.5)) ≤ 0.8 ^ 2 ∨
       distSq (getHelloKittyData 9 bowRandCE).pos
          (v3add (rotateZ (-0.5) (1.2, 0, 0)) (3, 2.5, 2.5)) ≤ 0.8 ^ 2) := by
  rw [bowCE_pos, distSq_rotateZ_vadd, distSq_rotateZ_vadd, distSq_rotateZ_vadd]
  push_neg
  refine ⟨?_, ?_, ?_⟩ <;> norm_num [distSq, v3add]
